import Mathlib

/-!
# Session-guard middleware: shallow embedding and verification

This file embeds the Next.js authentication middleware of the blogging-site
repository (`middleware` in the file exporting `config.matcher`) and proves
properties of it.

The middleware reads the `access_token` and `refresh_token` cookies from the
incoming request.  If the access token is truthy it passes the request
through.  Otherwise, if the refresh token is truthy, it performs a single
POST call to `${NEXT_PUBLIC_API_URL}/auth/refresh` with the refresh token in
the JSON body; on a success status it passes through, setting the
`access_token` cookie (path `/`, secure, sameSite strict) to the
`access_token` field of the response body; on a non-success status or any
exception it redirects to `/auth` with `next` set to the request pathname.
If both tokens are falsy it redirects to `/auth` with the same `next`
parameter.

JavaScript string truthiness makes a cookie holding the empty string behave
exactly like an absent cookie; `none` models an absent cookie and `some ""`
a present-but-empty one.
-/

namespace SessionGuard

/-- The two cookies the guard reads.  `none` models an absent cookie,
`some v` a cookie present with value `v` (possibly `""`). -/
structure Cookies where
  access_token : Option String
  refresh_token : Option String
  deriving DecidableEq, Repr

/-- The incoming request, restricted to what the middleware reads:
`request.nextUrl.pathname`, `request.url` (the base against which the
login URL is resolved), and the two cookies. -/
structure Request where
  pathname : String
  url : String
  cookies : Cookies
  deriving DecidableEq, Repr

/-- JavaScript truthiness of `request.cookies.get(name)?.value`:
`undefined` and the empty string are falsy, every other string truthy. -/
def truthy : Option String → Bool
  | none => false
  | some s => s != ""

/-- The JSON body of the renewal endpoint's reply, restricted to the keys
the middleware reads: `access_token` (on success) and `detail` (used only
in the thrown error message).  A missing key is `none`. -/
structure JsonBody where
  access_token : Option String
  detail : Option String
  deriving DecidableEq, Repr

/-- Outcome of the single `fetch` + `response.json()` sequence:
`throws` models a network failure or a body that fails to parse as JSON
(the code awaits `response.json()` before checking `response.ok`, so a
parse failure throws regardless of the status); `replies ok body` models a
parsed reply with `response.ok = ok`. -/
inductive FetchOutcome where
  | throws : FetchOutcome
  | replies (ok : Bool) (body : JsonBody) : FetchOutcome
  deriving DecidableEq, Repr

/-- One outbound call as the middleware builds it: URL, method, the
`Content-Type` header, and the value stored under the `refresh_token` key
of the stringified JSON body. -/
structure FetchCall where
  url : String
  method : String
  contentType : String
  body_refresh_token : Option String
  deriving DecidableEq, Repr

/-- Attributes passed to `cookies.set`. -/
structure CookieAttrs where
  path : String
  secure : Bool
  sameSite : String
  deriving DecidableEq, Repr

/-- One `cookies.set(name, value, attrs)` performed on the outgoing
response.  `value` is `Option String` because the code sets
`data.access_token` without checking that the key exists: a success body
lacking the key yields an `undefined` value, modelled as `none`. -/
structure SetCookie where
  name : String
  value : Option String
  attrs : CookieAttrs
  deriving DecidableEq, Repr

/-- The target of `NextResponse.redirect(loginUrl)`: the login URL is
`new URL('/auth', request.url)` with `searchParams.set('next', pathname)`. -/
structure RedirectTarget where
  base : String
  path : String
  next_param : String
  deriving DecidableEq, Repr

/-- The middleware's result: either `NextResponse.next()` (pass-through)
with the cookies set on it, or `NextResponse.redirect` with the cookies set
on it (the source never sets a cookie on a redirect, but the model keeps
the list so that this is a theorem rather than a convention). -/
inductive Response where
  | next (setCookies : List SetCookie) : Response
  | redirect (target : RedirectTarget) (setCookies : List SetCookie) : Response
  deriving DecidableEq, Repr

/-- The cookies set on a response, whichever constructor it is. -/
def Response.setCookiesOf : Response → List SetCookie
  | Response.next cs => cs
  | Response.redirect _ cs => cs

/-- Whether the response is a redirect. -/
def Response.isRedirect : Response → Bool
  | Response.next _ => false
  | Response.redirect _ _ => true

/-- The `access_token` cookie the success branch sets:
`responseWithToken.cookies.set('access_token', newAccessToken,
\x7b path: '/', secure: true, sameSite: 'strict' \x7d)`. -/
def accessCookie (v : Option String) : SetCookie :=
  { name := "access_token", value := v
    attrs := { path := "/", secure := true, sameSite := "strict" } }

/-- The embedded middleware.  `apiUrl` is `process.env.NEXT_PUBLIC_API_URL`;
`endpoint` is the outcome the renewal endpoint would produce for the one
call the middleware may make.  Returns the response together with the list
of renewal calls actually issued, so that call-count properties are
statable.  The branch structure mirrors the source: the outer
`if (!accessToken)`, the inner `if (refreshToken)` with its `try`/`catch`,
and the two identical login redirects. -/
def middleware (apiUrl : String) (req : Request) (endpoint : FetchOutcome) :
    Response × List FetchCall :=
  let pathname := req.pathname
  let accessToken := req.cookies.access_token
  let refreshToken := req.cookies.refresh_token
  if truthy accessToken then
    (Response.next [], [])
  else if truthy refreshToken then
    let call : FetchCall :=
      { url := apiUrl ++ "/auth/refresh"
        method := "POST"
        contentType := "application/json"
        body_refresh_token := refreshToken }
    match endpoint with
    | FetchOutcome.throws =>
        (Response.redirect { base := req.url, path := "/auth", next_param := pathname } [],
         [call])
    | FetchOutcome.replies ok body =>
        if ok then
          (Response.next [accessCookie body.access_token], [call])
        else
          (Response.redirect { base := req.url, path := "/auth", next_param := pathname } [],
           [call])
  else
    (Response.redirect { base := req.url, path := "/auth", next_param := pathname } [], [])

lemma truthy_none : truthy none = false := rfl

lemma truthy_some_iff (s : String) : truthy (some s) = true ↔ s ≠ "" := by
  simp [truthy]

lemma truthy_some_of_ne (s : String) (h : s ≠ "") : truthy (some s) = true :=
  (truthy_some_iff s).mpr h

/-- A renewal call strips its forwarded body: used to state that the
refresh-token value reaches the run only through the body. -/
def eraseRefresh (c : FetchCall) : FetchCall :=
  { c with body_refresh_token := none }

/-- C3: with both cookies absent the guard redirects to the login path with
the `next` query parameter equal to the originally requested path, and makes
no call to the renewal endpoint. -/
theorem C3_no_credentials_redirect (apiUrl path url : String) (e : FetchOutcome) :
    middleware apiUrl ⟨path, url, ⟨none, none⟩⟩ e =
      (Response.redirect ⟨url, "/auth", path⟩ [], []) := rfl

/-- C2: with the access token absent and the refresh token present, if the
renewal call returns a non-success status or throws, the guard redirects to
the login path with `next` equal to the requested path, sets no cookie, and
the response is identical to the one produced for the no-credentials case. -/
theorem C2_renewal_failure_redirect (apiUrl path url rt : String) (e : FetchOutcome)
    (hfail : e = FetchOutcome.throws ∨ ∃ b, e = FetchOutcome.replies false b) :
    (middleware apiUrl ⟨path, url, ⟨none, some rt⟩⟩ e).fst =
      Response.redirect ⟨url, "/auth", path⟩ [] ∧
    (middleware apiUrl ⟨path, url, ⟨none, some rt⟩⟩ e).fst =
      (middleware apiUrl ⟨path, url, ⟨none, none⟩⟩ e).fst := by
  by_cases hrt : rt = ""
  · subst hrt
    rcases hfail with h | ⟨b, h⟩ <;> subst h <;> simp [middleware, truthy]
  · rcases hfail with h | ⟨b, h⟩ <;> subst h <;> simp [middleware, truthy, hrt]

/-- Witness for C2 at a concrete throwing renewal call. -/
theorem C2_renewal_failure_redirect_witness :
    (middleware "http://api" ⟨"/account", "https://s/account", ⟨none, some "R"⟩⟩
        FetchOutcome.throws).fst =
      Response.redirect ⟨"https://s/account", "/auth", "/account"⟩ [] ∧
    (middleware "http://api" ⟨"/account", "https://s/account", ⟨none, some "R"⟩⟩
        FetchOutcome.throws).fst =
      (middleware "http://api" ⟨"/account", "https://s/account", ⟨none, none⟩⟩
        FetchOutcome.throws).fst :=
  C2_renewal_failure_redirect "http://api" "/account" "https://s/account" "R"
    FetchOutcome.throws (Or.inl rfl)

/-- C1 as stated is false: a refresh-token cookie that is present but holds
the empty string is falsy, so even against a renewal endpoint that would
reply success with a token, the guard redirects instead of passing through
with the cookie. -/
theorem C1_counterexample :
    (⟨none, some ""⟩ : Cookies).access_token = none ∧
    (⟨none, some ""⟩ : Cookies).refresh_token = some "" ∧
    (middleware "http://api" ⟨"/account", "https://s/account", ⟨none, some ""⟩⟩
        (FetchOutcome.replies true ⟨some "T", none⟩)).fst =
      Response.redirect ⟨"https://s/account", "/auth", "/account"⟩ [] ∧
    (middleware "http://api" ⟨"/account", "https://s/account", ⟨none, some ""⟩⟩
        (FetchOutcome.replies true ⟨some "T", none⟩)).fst ≠
      Response.next [accessCookie (some "T")] := by
  refine ⟨rfl, rfl, rfl, ?_⟩
  decide

/-- C1 (amended to a non-empty refresh token): with the access token absent
and the refresh token present and non-empty, a success reply whose body
carries `access_token = T` yields a pass-through carrying the cookie
`access_token = T` with path `/`, secure, sameSite strict, no redirect, and
exactly the one renewal call. -/
theorem C1_success_sets_cookie (apiUrl path url rt T : String) (d : Option String)
    (hrt : rt ≠ "") :
    middleware apiUrl ⟨path, url, ⟨none, some rt⟩⟩
        (FetchOutcome.replies true ⟨some T, d⟩) =
      (Response.next [accessCookie (some T)],
       [⟨apiUrl ++ "/auth/refresh", "POST", "application/json", some rt⟩]) := by
  simp [middleware, truthy, hrt]

/-- Witness for the amended C1 at concrete tokens. -/
theorem C1_success_sets_cookie_witness :
    ("R" : String) ≠ "" ∧
    middleware "http://api" ⟨"/p", "https://s/p", ⟨none, some "R"⟩⟩
        (FetchOutcome.replies true ⟨some "T", none⟩) =
      (Response.next [accessCookie (some "T")],
       [⟨"http://api" ++ "/auth/refresh", "POST", "application/json", some "R"⟩]) :=
  ⟨by decide, C1_success_sets_cookie "http://api" "/p" "https://s/p" "R" "T" none (by decide)⟩

/-- C4 as stated is false: an access-token cookie that is present but holds
the empty string is falsy, so the guard does not pass the request through. -/
theorem C4_counterexample :
    (⟨some "", none⟩ : Cookies).access_token = some "" ∧
    (middleware "http://api" ⟨"/account", "https://s/account", ⟨some "", none⟩⟩
        FetchOutcome.throws).fst =
      Response.redirect ⟨"https://s/account", "/auth", "/account"⟩ [] ∧
    (middleware "http://api" ⟨"/account", "https://s/account", ⟨some "", none⟩⟩
        FetchOutcome.throws).fst ≠ Response.next [] := by
  refine ⟨rfl, rfl, ?_⟩
  decide

/-- C4 (amended to a non-empty access token): with the access token present
and non-empty, the guard passes through with no cookie mutation and no
renewal call, whatever the refresh cookie and the endpoint outcome are. -/
theorem C4_present_token_passthrough (apiUrl path url a : String) (rc : Option String)
    (e : FetchOutcome) (ha : a ≠ "") :
    middleware apiUrl ⟨path, url, ⟨some a, rc⟩⟩ e = (Response.next [], []) := by
  simp [middleware, truthy, ha]

/-- Witness for the amended C4 at a concrete present token. -/
theorem C4_present_token_passthrough_witness :
    ("tok" : String) ≠ "" ∧
    middleware "http://api" ⟨"/p", "https://s/p", ⟨some "tok", some "R"⟩⟩
        FetchOutcome.throws = (Response.next [], []) :=
  ⟨by decide,
   C4_present_token_passthrough "http://api" "/p" "https://s/p" "tok" (some "R")
     FetchOutcome.throws (by decide)⟩

/-- C5 as stated is false in its exactly-one-call part: with the access
token absent and the refresh token present but empty, no renewal call is
made at all. -/
theorem C5_counterexample :
    (⟨none, some ""⟩ : Cookies).access_token = none ∧
    (⟨none, some ""⟩ : Cookies).refresh_token = some "" ∧
    (middleware "http://api" ⟨"/p", "https://s/p", ⟨none, some ""⟩⟩
        FetchOutcome.throws).snd = [] := by
  exact ⟨rfl, rfl, rfl⟩

/-- C5 (amended to a non-empty refresh token): every run makes at most one
renewal call, and with the access token absent and the refresh token present
and non-empty, exactly one POST call is made, carrying that refresh token
under the `refresh_token` key of its JSON body. -/
theorem C5_at_most_one_call (apiUrl : String) (req : Request) (e : FetchOutcome) :
    (middleware apiUrl req e).snd.length ≤ 1 ∧
    (∀ rt : String, rt ≠ "" → req.cookies.access_token = none →
      req.cookies.refresh_token = some rt →
      (middleware apiUrl req e).snd =
        [⟨apiUrl ++ "/auth/refresh", "POST", "application/json", some rt⟩]) := by
  obtain ⟨path, url, ca, cr⟩ := req
  constructor
  · cases h1 : truthy ca
    · cases h2 : truthy cr
      · simp [middleware, h1, h2]
      · cases e with
        | throws => simp [middleware, h1, h2]
        | replies ok body => cases ok <;> simp [middleware, h1, h2]
    · simp [middleware, h1]
  · intro rt hrt hca hcr
    simp only [Cookies.access_token] at hca
    simp only [Cookies.refresh_token] at hcr
    subst hca; subst hcr
    cases e with
    | throws => simp [middleware, truthy, hrt]
    | replies ok body => cases ok <;> simp [middleware, truthy, hrt]

/-- Witness for the amended C5 at a concrete run. -/
theorem C5_at_most_one_call_witness :
    (middleware "http://api" ⟨"/p", "https://s/p", ⟨none, some "R"⟩⟩
        FetchOutcome.throws).snd.length ≤ 1 ∧
    (∀ rt : String, rt ≠ "" →
      (⟨none, some "R"⟩ : Cookies).access_token = none →
      (⟨none, some "R"⟩ : Cookies).refresh_token = some rt →
      (middleware "http://api" ⟨"/p", "https://s/p", ⟨none, some "R"⟩⟩
          FetchOutcome.throws).snd =
        [⟨"http://api" ++ "/auth/refresh", "POST", "application/json", some rt⟩]) :=
  C5_at_most_one_call "http://api" ⟨"/p", "https://s/p", ⟨none, some "R"⟩⟩
    FetchOutcome.throws

/-- C6: the guard never sets a cookie named anything but `access_token`
(in particular it never writes or deletes `refresh_token`); redirects carry
no cookie; a cookie is set only on the successful-renewal path; and when the
access token is truthy nothing is mutated at all. -/
theorem C6_cookie_frame (apiUrl : String) (req : Request) (e : FetchOutcome) :
    (∀ c ∈ (middleware apiUrl req e).fst.setCookiesOf, c.name = "access_token") ∧
    ((middleware apiUrl req e).fst.isRedirect = true →
      (middleware apiUrl req e).fst.setCookiesOf = []) ∧
    ((middleware apiUrl req e).fst.setCookiesOf ≠ [] →
      truthy req.cookies.access_token = false ∧
      truthy req.cookies.refresh_token = true ∧
      ∃ b, e = FetchOutcome.replies true b ∧
        (middleware apiUrl req e).fst = Response.next [accessCookie b.access_token]) ∧
    (truthy req.cookies.access_token = true →
      middleware apiUrl req e = (Response.next [], [])) := by
  obtain ⟨path, url, ca, cr⟩ := req
  cases h1 : truthy ca
  · cases h2 : truthy cr
    · simp [middleware, h1, h2, Response.setCookiesOf, Response.isRedirect]
    · cases e with
      | throws =>
          simp [middleware, h1, h2, Response.setCookiesOf, Response.isRedirect]
      | replies ok body =>
          cases ok <;>
            simp [middleware, h1, h2, Response.setCookiesOf, Response.isRedirect,
              accessCookie]
  · simp [middleware, h1, Response.setCookiesOf, Response.isRedirect]

/-- Witness for C6 at a concrete successful-renewal run. -/
theorem C6_cookie_frame_witness :
    (∀ c ∈ (middleware "http://api" ⟨"/p", "https://s/p", ⟨none, some "R"⟩⟩
        (FetchOutcome.replies true ⟨some "T", none⟩)).fst.setCookiesOf,
      c.name = "access_token") ∧
    ((middleware "http://api" ⟨"/p", "https://s/p", ⟨none, some "R"⟩⟩
        (FetchOutcome.replies true ⟨some "T", none⟩)).fst.isRedirect = true →
      (middleware "http://api" ⟨"/p", "https://s/p", ⟨none, some "R"⟩⟩
        (FetchOutcome.replies true ⟨some "T", none⟩)).fst.setCookiesOf = []) ∧
    ((middleware "http://api" ⟨"/p", "https://s/p", ⟨none, some "R"⟩⟩
        (FetchOutcome.replies true ⟨some "T", none⟩)).fst.setCookiesOf ≠ [] →
      truthy (⟨none, some "R"⟩ : Cookies).access_token = false ∧
      truthy (⟨none, some "R"⟩ : Cookies).refresh_token = true ∧
      ∃ b, FetchOutcome.replies true ⟨some "T", none⟩ = FetchOutcome.replies true b ∧
        (middleware "http://api" ⟨"/p", "https://s/p", ⟨none, some "R"⟩⟩
          (FetchOutcome.replies true ⟨some "T", none⟩)).fst =
          Response.next [accessCookie b.access_token]) ∧
    (truthy (⟨none, some "R"⟩ : Cookies).access_token = true →
      middleware "http://api" ⟨"/p", "https://s/p", ⟨none, some "R"⟩⟩
        (FetchOutcome.replies true ⟨some "T", none⟩) = (Response.next [], [])) :=
  C6_cookie_frame "http://api" ⟨"/p", "https://s/p", ⟨none, some "R"⟩⟩
    (FetchOutcome.replies true ⟨some "T", none⟩)

/-- C7: the guard is stateless — its output is a function of the request
cookies, the request pathname, the request URL and the renewal outcome
alone, so two invocations on the same input against the same endpoint
outcome agree; in particular, in the absent/present success scenario both
invocations carry the same `access_token` cookie value. -/
theorem C7_stateless_idempotent (apiUrl : String) (r1 r2 : Request) (e : FetchOutcome)
    (hc : r1.cookies = r2.cookies) (hp : r1.pathname = r2.pathname)
    (hu : r1.url = r2.url) :
    middleware apiUrl r1 e = middleware apiUrl r2 e ∧
    (∀ rt T : String, ∀ d : Option String, rt ≠ "" →
      r1.cookies = ⟨none, some rt⟩ → e = FetchOutcome.replies true ⟨some T, d⟩ →
      (middleware apiUrl r1 e).fst.setCookiesOf = [accessCookie (some T)] ∧
      (middleware apiUrl r2 e).fst.setCookiesOf = [accessCookie (some T)]) := by
  obtain ⟨p1, u1, c1⟩ := r1
  obtain ⟨p2, u2, c2⟩ := r2
  simp only [Request.cookies] at hc
  simp only [Request.pathname] at hp
  simp only [Request.url] at hu
  subst hc; subst hp; subst hu
  refine ⟨rfl, ?_⟩
  intro rt T d hrt hcc he
  subst hcc; subst he
  simp [middleware, truthy, hrt, Response.setCookiesOf]

/-- Witness for C7 at a concrete repeated invocation. -/
theorem C7_stateless_idempotent_witness :
    middleware "http://api" ⟨"/p", "https://s/p", ⟨none, some "R"⟩⟩
        (FetchOutcome.replies true ⟨some "T", none⟩) =
      middleware "http://api" ⟨"/p", "https://s/p", ⟨none, some "R"⟩⟩
        (FetchOutcome.replies true ⟨some "T", none⟩) ∧
    (∀ rt T : String, ∀ d : Option String, rt ≠ "" →
      (⟨"/p", "https://s/p", ⟨none, some "R"⟩⟩ : Request).cookies = ⟨none, some rt⟩ →
      FetchOutcome.replies true ⟨some "T", none⟩ = FetchOutcome.replies true ⟨some T, d⟩ →
      (middleware "http://api" ⟨"/p", "https://s/p", ⟨none, some "R"⟩⟩
        (FetchOutcome.replies true ⟨some "T", none⟩)).fst.setCookiesOf =
        [accessCookie (some T)] ∧
      (middleware "http://api" ⟨"/p", "https://s/p", ⟨none, some "R"⟩⟩
        (FetchOutcome.replies true ⟨some "T", none⟩)).fst.setCookiesOf =
        [accessCookie (some T)]) :=
  C7_stateless_idempotent "http://api" ⟨"/p", "https://s/p", ⟨none, some "R"⟩⟩
    ⟨"/p", "https://s/p", ⟨none, some "R"⟩⟩
    (FetchOutcome.replies true ⟨some "T", none⟩) rfl rfl rfl

/-- C8 as stated is false: the guard does branch on the refresh token's
content, because an empty value is falsy.  Two runs whose inputs differ only
in the present refresh-token value `""` versus `"R"` produce different
responses, and their call lists differ even after erasing the forwarded
body. -/
theorem C8_counterexample :
    (middleware "http://api" ⟨"/p", "https://s/p", ⟨none, some ""⟩⟩
        (FetchOutcome.replies true ⟨some "T", none⟩)).fst ≠
      (middleware "http://api" ⟨"/p", "https://s/p", ⟨none, some "R"⟩⟩
        (FetchOutcome.replies true ⟨some "T", none⟩)).fst ∧
    (middleware "http://api" ⟨"/p", "https://s/p", ⟨none, some ""⟩⟩
        (FetchOutcome.replies true ⟨some "T", none⟩)).snd.map eraseRefresh ≠
      (middleware "http://api" ⟨"/p", "https://s/p", ⟨none, some "R"⟩⟩
        (FetchOutcome.replies true ⟨some "T", none⟩)).snd.map eraseRefresh := by
  constructor <;> decide

/-- C8 (amended to non-empty values): changing a present non-empty access
token changes nothing, and a present non-empty refresh token influences the
run only by being forwarded verbatim: responses agree, call lists agree once
the forwarded body is erased, and each call carries the token verbatim. -/
theorem C8_opaque_tokens (apiUrl path url : String) (e : FetchOutcome) :
    (∀ a1 a2 : String, ∀ rc : Option String, a1 ≠ "" → a2 ≠ "" →
      middleware apiUrl ⟨path, url, ⟨some a1, rc⟩⟩ e =
        middleware apiUrl ⟨path, url, ⟨some a2, rc⟩⟩ e) ∧
    (∀ ac : Option String, ∀ r1 r2 : String, r1 ≠ "" → r2 ≠ "" →
      (middleware apiUrl ⟨path, url, ⟨ac, some r1⟩⟩ e).fst =
        (middleware apiUrl ⟨path, url, ⟨ac, some r2⟩⟩ e).fst ∧
      (middleware apiUrl ⟨path, url, ⟨ac, some r1⟩⟩ e).snd.map eraseRefresh =
        (middleware apiUrl ⟨path, url, ⟨ac, some r2⟩⟩ e).snd.map eraseRefresh ∧
      (∀ c ∈ (middleware apiUrl ⟨path, url, ⟨ac, some r1⟩⟩ e).snd,
        c.body_refresh_token = some r1)) := by
  constructor
  · intro a1 a2 rc h1 h2
    simp [middleware, truthy, h1, h2]
  · intro ac r1 r2 h1 h2
    cases hac : truthy ac
    · cases e with
      | throws =>
          simp [middleware, hac, truthy_some_of_ne r1 h1, truthy_some_of_ne r2 h2,
            eraseRefresh]
      | replies ok body =>
          cases ok <;>
            simp [middleware, hac, truthy_some_of_ne r1 h1, truthy_some_of_ne r2 h2,
              eraseRefresh]
    · simp [middleware, hac]

/-- Witness for the amended C8 at concrete runs. -/
theorem C8_opaque_tokens_witness :
    (∀ a1 a2 : String, ∀ rc : Option String, a1 ≠ "" → a2 ≠ "" →
      middleware "http://api" ⟨"/p", "https://s/p", ⟨some a1, rc⟩⟩
          FetchOutcome.throws =
        middleware "http://api" ⟨"/p", "https://s/p", ⟨some a2, rc⟩⟩
          FetchOutcome.throws) ∧
    (∀ ac : Option String, ∀ r1 r2 : String, r1 ≠ "" → r2 ≠ "" →
      (middleware "http://api" ⟨"/p", "https://s/p", ⟨ac, some r1⟩⟩
          FetchOutcome.throws).fst =
        (middleware "http://api" ⟨"/p", "https://s/p", ⟨ac, some r2⟩⟩
          FetchOutcome.throws).fst ∧
      (middleware "http://api" ⟨"/p", "https://s/p", ⟨ac, some r1⟩⟩
          FetchOutcome.throws).snd.map eraseRefresh =
        (middleware "http://api" ⟨"/p", "https://s/p", ⟨ac, some r2⟩⟩
          FetchOutcome.throws).snd.map eraseRefresh ∧
      (∀ c ∈ (middleware "http://api" ⟨"/p", "https://s/p", ⟨ac, some r1⟩⟩
          FetchOutcome.throws).snd,
        c.body_refresh_token = some r1)) :=
  C8_opaque_tokens "http://api" "/p" "https://s/p" FetchOutcome.throws

/-- C9: a present-but-empty cookie is treated as absent: with
`access_token = ""` and a non-empty refresh token the guard issues the
renewal call instead of passing through, and with both cookies empty it
produces the no-credentials login redirect. -/
theorem C9_empty_is_absent (apiUrl path url rt : String) (e : FetchOutcome)
    (hrt : rt ≠ "") :
    (middleware apiUrl ⟨path, url, ⟨some "", some rt⟩⟩ e).snd =
      [⟨apiUrl ++ "/auth/refresh", "POST", "application/json", some rt⟩] ∧
    middleware apiUrl ⟨path, url, ⟨some "", some ""⟩⟩ e =
      (Response.redirect ⟨url, "/auth", path⟩ [], []) := by
  constructor
  · cases e with
    | throws => simp [middleware, truthy, hrt]
    | replies ok body => cases ok <;> simp [middleware, truthy, hrt]
  · simp [middleware, truthy]

/-- Witness for C9 at a concrete empty access token. -/
theorem C9_empty_is_absent_witness :
    ("R" : String) ≠ "" ∧
    ((middleware "http://api" ⟨"/p", "https://s/p", ⟨some "", some "R"⟩⟩
        FetchOutcome.throws).snd =
      [⟨"http://api" ++ "/auth/refresh", "POST", "application/json", some "R"⟩] ∧
    middleware "http://api" ⟨"/p", "https://s/p", ⟨some "", some ""⟩⟩
        FetchOutcome.throws =
      (Response.redirect ⟨"https://s/p", "/auth", "/p"⟩ [], [])) :=
  ⟨by decide,
   C9_empty_is_absent "http://api" "/p" "https://s/p" "R" FetchOutcome.throws (by decide)⟩

/-- C10: a success reply whose body lacks the `access_token` key still
produces a pass-through, and the `access_token` cookie is written with the
missing (undefined) value — no validation of the success payload occurs. -/
theorem C10_success_without_token (apiUrl path url rt : String) (d : Option String)
    (hrt : rt ≠ "") :
    middleware apiUrl ⟨path, url, ⟨none, some rt⟩⟩
        (FetchOutcome.replies true ⟨none, d⟩) =
      (Response.next [accessCookie none],
       [⟨apiUrl ++ "/auth/refresh", "POST", "application/json", some rt⟩]) := by
  simp [middleware, truthy, hrt]

/-- Witness for C10 at a concrete tokenless success body. -/
theorem C10_success_without_token_witness :
    ("R" : String) ≠ "" ∧
    middleware "http://api" ⟨"/p", "https://s/p", ⟨none, some "R"⟩⟩
        (FetchOutcome.replies true ⟨none, some "ignored"⟩) =
      (Response.next [accessCookie none],
       [⟨"http://api" ++ "/auth/refresh", "POST", "application/json", some "R"⟩]) :=
  ⟨by decide,
   C10_success_without_token "http://api" "/p" "https://s/p" "R" (some "ignored")
     (by decide)⟩

end SessionGuard
